import Mathlib

/-!
The file server: the three iterations of the HTTP file handler

Shallow embedding of `src/v1/web_v1.go`, `src/v2/web_v2.go` and
`src/v3/web_v3.go`.

* Go strings and byte slices are byte sequences (`GoString`).
* A Go `error` value is described by what the wrappers ask of it
  (`Error()`, the `BusinessError` type assertion, `os.IsNotExist`,
  `os.IsPermission`).
* The `http.ResponseWriter` is a record of the status line, the body bytes
  and the interface calls made on it; the file system, the log and the set
  of open file handles are explicit state.
* A handler returns normally (with or without an error) or panics.
-/

namespace FileServer

/-! ## Strings and errors -/

/-- A Go `string` / `[]byte`: a sequence of bytes. -/
abbrev GoString := List UInt8

/-- The bytes (UTF-8) of a string literal of the program. -/
def go (s : String) : GoString := s.data.flatMap String.utf8EncodeChar

/-- Go `len(s)`. -/
def len (s : GoString) : Nat := s.length

/-- Go `strings.HasPrefix(s, prefix)`:
`len(s) >= len(prefix) && s[0:len(prefix)] == prefix`. -/
def hasPrefix (s pre : GoString) : Bool :=
  decide (len s ≥ len pre) && (s.take (len pre) == pre)

/-- A Go `error` value, given by the observations the program makes of it. -/
structure GoError where
  /-- The result of `err.Error()`. -/
  text : GoString
  /-- The result of `Message()` when the dynamic type implements
  `BusinessError` (the type assertion `err.(BusinessError)` succeeds). -/
  message : Option GoString
  /-- The result of `os.IsNotExist(err)`. -/
  notExist : Bool
  /-- The result of `os.IsPermission(err)`. -/
  permission : Bool
  deriving DecidableEq, Repr

/-- An error produced by the operating system or the I/O libraries
(`os.Open`, `ioutil.ReadAll`, `ResponseWriter.Write`): its dynamic type has
no `Message` method. -/
structure SysError where
  text : GoString
  notExist : Bool
  permission : Bool
  deriving DecidableEq, Repr

/-- A system error seen as a Go `error`. -/
def SysError.toError (e : SysError) : GoError :=
  { text := e.text, message := none, notExist := e.notExist, permission := e.permission }

/-- The v3 type `UserError string` with its methods `Message` and `Error`:
both return the string; it implements `BusinessError`. -/
def UserError (s : GoString) : GoError :=
  { text := s, message := some s, notExist := false, permission := false }

/-- The value carried by a panic, given by its `%v` rendering. -/
structure PanicValue where
  render : GoString
  deriving DecidableEq, Repr

/-- The run-time panic of a slice expression `s[lo:]` with `lo > len(s)`. -/
def sliceBoundsPanic (lo n : Nat) : PanicValue :=
  ⟨go "runtime error: slice bounds out of range [" ++ go (toString lo) ++ go ":"
    ++ go (toString n) ++ go "]"⟩

/-- The value of `panic(err)` for an error `err`: `%v` prints `err.Error()`. -/
def errorPanic (e : GoError) : PanicValue := ⟨e.text⟩

/-- Go slice expression `s[lo:]`: in range exactly when `lo <= len(s)`. -/
def sliceFrom (s : GoString) (lo : Nat) : Option GoString :=
  if lo ≤ len s then some (s.drop lo) else none

/-! ## The response writer -/

/-- A call made on the `http.ResponseWriter` interface. -/
inductive WriterCall
  | writeHeader (code : Nat)
  | write (data : GoString)
  deriving DecidableEq, Repr

/-- The state of an `http.ResponseWriter`.  `status = none` until the status
line is written.  `conn` is the fault of the underlying connection, if any:
`some (n, e)` makes every `Write` deliver at most `n` bytes and return `e`.
The header map is not modelled. -/
structure Response where
  status : Option Nat
  body : GoString
  calls : List WriterCall
  conn : Option (Nat × SysError)
  deriving DecidableEq, Repr

/-- The writer handed to a handler at the start of a request. -/
def Response.fresh (conn : Option (Nat × SysError)) : Response :=
  { status := none, body := [], calls := [], conn := conn }

/-- `w.WriteHeader(code)`: sets the status unless it is already written. -/
def Response.writeHeader (w : Response) (code : Nat) : Response :=
  { w with
    status := some (w.status.getD code)
    calls := w.calls ++ [.writeHeader code] }

/-- `w.Write(data)`: writes the status line 200 if none was written, then
the bytes; returns the error of the connection, if any. -/
def Response.write (w : Response) (data : GoString) : Option GoError × Response :=
  match w.conn with
  | none =>
    (none, { w with
      status := some (w.status.getD 200)
      body := w.body ++ data
      calls := w.calls ++ [.write data] })
  | some (n, e) =>
    (some e.toError, { w with
      status := some (w.status.getD 200)
      body := w.body ++ data.take n
      calls := w.calls ++ [.write data] })

/-- `http.StatusText(code)` for the status codes the program names
(`StatusOK`, `StatusBadRequest`, `StatusForbidden`, `StatusNotFound`,
`StatusInternalServerError`); the empty string stands for every other code. -/
def statusText (code : Nat) : GoString :=
  if code = 200 then go "OK"
  else if code = 400 then go "Bad Request"
  else if code = 403 then go "Forbidden"
  else if code = 404 then go "Not Found"
  else if code = 500 then go "Internal Server Error"
  else []

/-- `http.Error(w, msg, code)` of net/http: after setting the content-type
headers it calls `w.WriteHeader(code)` and `fmt.Fprintln(w, msg)`, one
`Write` of the message followed by a newline, whose error is dropped. -/
def httpError (w : Response) (msg : GoString) (code : Nat) : Response :=
  ((w.writeHeader code).write (msg ++ [10])).2

/-! ## The world: file system, open handles, log -/

/-- What `ioutil.ReadAll` returns for an opened file. -/
inductive ReadOutcome
  | ok (content : GoString)
  | fail (err : SysError)
  deriving DecidableEq, Repr

/-- What `os.Open(path)` meets at a path. -/
inductive Entry
  | file (r : ReadOutcome)
  | openErr (err : SysError)
  deriving DecidableEq, Repr

/-- An open `*os.File`. -/
structure File where
  fd : Nat
  data : ReadOutcome
  deriving DecidableEq, Repr

/-- A file-system call made by a handler. -/
inductive FsEvent
  | opened (path : GoString) (fd : Nat)
  | openFailed (path : GoString)
  | closed (fd : Nat)
  deriving DecidableEq, Repr

/-- The file system as `os.Open` sees it, constant during a request. -/
abbrev FS := GoString → Entry

/-- The state a request runs in. -/
structure State where
  resp : Response
  log : List GoString
  openFiles : List Nat
  fsTrace : List FsEvent
  deriving DecidableEq, Repr

/-- The state at the start of a request on a process with the given open
handles. -/
def State.start (conn : Option (Nat × SysError)) (openFiles : List Nat) : State :=
  { resp := Response.fresh conn, log := [], openFiles := openFiles, fsTrace := [] }

/-- A handle that is not open: one more than the largest open one. -/
def freshFd (openFiles : List Nat) : Nat := openFiles.foldr max 0 + 1

/-- `os.Open(path)`. -/
def osOpen (fs : FS) (path : GoString) (s : State) : Except GoError File × State :=
  match fs path with
  | .openErr e =>
    (.error e.toError, { s with fsTrace := s.fsTrace ++ [.openFailed path] })
  | .file r =>
    let fd := freshFd s.openFiles
    (.ok ⟨fd, r⟩, { s with
      openFiles := fd :: s.openFiles
      fsTrace := s.fsTrace ++ [.opened path fd] })

/-- `file.Close()`, whose result the handlers drop. -/
def fileClose (f : File) (s : State) : State :=
  { s with
    openFiles := s.openFiles.filter (fun h => h ≠ f.fd)
    fsTrace := s.fsTrace ++ [.closed f.fd] }

/-- `ioutil.ReadAll(file)`. -/
def readAll (f : File) : Except GoError GoString :=
  match f.data with
  | .ok content => .ok content
  | .fail e => .error e.toError

/-- `log.Printf(format, args...)`: one log entry, the formatted message. -/
def logPrintf (s : State) (msg : GoString) : State :=
  { s with log := s.log ++ [msg] }

/-! ## Handlers -/

/-- The part of `*http.Request` the program reads: `request.URL.Path`. -/
structure Request where
  path : GoString
  deriving DecidableEq, Repr

/-- How a call of a handler ends. -/
inductive Outcome
  | returned (err : Option GoError)
  | panicked (v : PanicValue)
  deriving DecidableEq, Repr

/-- The Go type `appHandler`. -/
abbrev appHandler := Request → State → Outcome × State

/-- A handler of the framework, `func(http.ResponseWriter, *http.Request)`:
it returns normally (`none`) or panics. -/
abbrev HandlerFunc := Request → State → Option PanicValue × State

/-- The constant named `prefix` in v3; v1 and v2 write the literal. -/
def listPrefix : GoString := go "/list/"

/-- Steps 3 and 4 of the handlers of v2 and v3, run between `os.Open` and
the deferred `file.Close()`. -/
def readAndWrite (file : File) (s : State) : Outcome × State :=
  match readAll file with
  | .error err => (.returned (some err), s)
  | .ok all =>
    match s.resp.write all with
    | (some err, w) => (.returned (some err), { s with resp := w })
    | (none, w) => (.returned none, { s with resp := w })

/-- Steps 2 to 4 of `handlerFileList` (v2 and v3) on the sliced path. -/
def openReadWrite (fs : FS) (path : GoString) (s : State) : Outcome × State :=
  match osOpen fs path s with
  | (.error err, s1) => (.returned (some err), s1)
  | (.ok file, s1) =>
    let (out, s2) := readAndWrite file s1
    (out, fileClose file s2)

/-- The function `handlerFileList` of `src/v2/web_v2.go`. -/
def handlerFileList_v2 (fs : FS) : appHandler := fun request s =>
  match sliceFrom request.path (len (go "/list/")) with
  | none => (.panicked (sliceBoundsPanic (len (go "/list/")) (len request.path)), s)
  | some path => openReadWrite fs path s

/-- The function `handlerFileList` of `src/v3/web_v3.go`. -/
def handlerFileList_v3 (fs : FS) : appHandler := fun request s =>
  if !hasPrefix request.path listPrefix then
    (.returned (some (UserError (go "the prefix of url must be " ++ listPrefix))), s)
  else
    match sliceFrom request.path (len listPrefix) with
    | none => (.panicked (sliceBoundsPanic (len listPrefix) (len request.path)), s)
    | some path => openReadWrite fs path s

/-- The handler closure registered by `main` of `src/v1/web_v1.go`: every
failure is a `panic(err)`. -/
def handler_v1 (fs : FS) : HandlerFunc := fun request s =>
  match sliceFrom request.path (len (go "/list/")) with
  | none => (some (sliceBoundsPanic (len (go "/list/")) (len request.path)), s)
  | some path =>
    match osOpen fs path s with
    | (.error err, s1) => (some (errorPanic err), s1)
    | (.ok file, s1) =>
      match readAll file with
      | .error err => (some (errorPanic err), fileClose file s1)
      | .ok all =>
        match s1.resp.write all with
        | (some err, w) => (some (errorPanic err), fileClose file { s1 with resp := w })
        | (none, w) => (none, fileClose file { s1 with resp := w })

/-- The `switch` of `errWrapper` (v2 and v3): the classified status code. -/
def classify (err : GoError) : Nat :=
  if err.notExist then 404
  else if err.permission then 403
  else 500

/-- The function `errWrapper` of `src/v2/web_v2.go`. -/
def errWrapper_v2 (handler : appHandler) : HandlerFunc := fun request s =>
  match handler request s with
  | (.panicked v, s1) => (some v, s1)
  | (.returned none, s1) => (none, s1)
  | (.returned (some err), s1) =>
    let (code, s2) :=
      if err.notExist then
        ((404 : Nat), logPrintf s1 (go "Error occurred handling request: " ++ err.text))
      else if err.permission then (403, s1)
      else (500, s1)
    (none, { s2 with resp := httpError s2.resp (statusText code) 404 })

/-- The function `errWrapper` of `src/v3/web_v3.go`. -/
def errWrapper_v3 (handler : appHandler) : HandlerFunc := fun request s =>
  match handler request s with
  | (.panicked r, s1) => (none, logPrintf s1 (go "Panic: " ++ r.render))
  | (.returned none, s1) => (none, s1)
  | (.returned (some err), s1) =>
    let s2 := logPrintf s1 (go "Error occurred handling request: " ++ err.text)
    match err.message with
    | some msg => (none, { s2 with resp := httpError s2.resp msg 400 })
    | none =>
      let code : Nat :=
        if err.notExist then 404
        else if err.permission then 403
        else 500
      (none, { s2 with resp := httpError s2.resp (statusText code) 404 })

/-! ## Registration -/

/-- The registration `http.HandleFunc("/list/", func ...)` made by `main` in
`src/v1/web_v1.go`: the pattern and the handler.  How net/http routes a
request to a registered handler is not part of the model; the theorems run
the registered handler on the request. -/
def main_v1 (fs : FS) : GoString × HandlerFunc :=
  (go "/list/", handler_v1 fs)

/-- The registration `http.HandleFunc("/list/", errWrapper(handlerFileList))`
made by `main` in `src/v2/web_v2.go`. -/
def main_v2 (fs : FS) : GoString × HandlerFunc :=
  (go "/list/", errWrapper_v2 (handlerFileList_v2 fs))

/-- The registration `http.HandleFunc("/", errWrapper(handlerFileList))` made
by `main` in `src/v3/web_v3.go`. -/
def main_v3 (fs : FS) : GoString × HandlerFunc :=
  (go "/", errWrapper_v3 (handlerFileList_v3 fs))

/-! ## Sample worlds -/

/-- A working directory holding `hello.txt` with content `hi` and an
unreadable `secret`; every other path does not exist. -/
def sampleFS : FS := fun path =>
  if path = go "hello.txt" then .file (.ok (go "hi"))
  else if path = go "secret" then
    .openErr ⟨go "open secret: permission denied", false, true⟩
  else .openErr ⟨go "open " ++ path ++ go ": no such file or directory", true, false⟩

/-! ## Basic facts about the model -/

theorem len_listPrefix : len listPrefix = 6 := by decide

theorem hasPrefix_iff_isPrefix (s pre : GoString) :
    hasPrefix s pre = true ↔ pre <+: s := by
  unfold hasPrefix len
  constructor
  · intro h
    simp only [ge_iff_le, Bool.and_eq_true, decide_eq_true_eq, beq_iff_eq] at h
    exact h.2 ▸ List.take_prefix _ _
  · rintro ⟨t, rfl⟩
    simp

theorem hasPrefix_append (pre p : GoString) : hasPrefix (pre ++ p) pre = true :=
  (hasPrefix_iff_isPrefix _ _).2 (List.prefix_append _ _)

theorem hasPrefix_len_le {s pre : GoString} (h : hasPrefix s pre = true) :
    len pre ≤ len s := by
  unfold hasPrefix at h
  simp only [ge_iff_le, Bool.and_eq_true, decide_eq_true_eq] at h
  exact h.1

theorem sliceFrom_of_le {s : GoString} {lo : Nat} (h : lo ≤ len s) :
    sliceFrom s lo = some (s.drop lo) := by
  simp [sliceFrom, h]

theorem sliceFrom_of_lt {s : GoString} {lo : Nat} (h : len s < lo) :
    sliceFrom s lo = none := by
  simp [sliceFrom, Nat.not_le.2 h]

theorem le_foldr_max (l : List Nat) : ∀ x ∈ l, x ≤ l.foldr max 0 := by
  induction l with
  | nil => intro x hx; cases hx
  | cons a t ih =>
    intro x hx
    rcases List.mem_cons.1 hx with rfl | hx
    · exact le_max_left _ _
    · exact le_trans (ih x hx) (le_max_right _ _)

theorem freshFd_not_mem (l : List Nat) : freshFd l ∉ l := by
  intro h
  have := le_foldr_max l _ h
  unfold freshFd at this
  omega

theorem ne_freshFd_of_mem (l : List Nat) : ∀ a ∈ l, ¬a = freshFd l := by
  rintro a ha rfl
  exact freshFd_not_mem l ha

theorem filter_ne_fresh (l : List Nat) :
    (freshFd l :: l).filter (fun h => h ≠ freshFd l) = l := by
  have hn := freshFd_not_mem l
  rw [List.filter_cons_of_neg (by simp)]
  apply List.filter_eq_self.2
  intro a ha
  simp only [ne_eq, decide_not, Bool.not_eq_eq_eq_not, Bool.not_true, decide_eq_false_iff_not]
  rintro rfl
  exact hn ha

/-- Steps 2 to 4 when `os.Open` fails: the error is returned, only the
failed open is recorded. -/
theorem openReadWrite_openErr (fs : FS) (path : GoString) (s : State) (e : SysError)
    (h : fs path = .openErr e) :
    openReadWrite fs path s
      = (.returned (some e.toError), { s with fsTrace := s.fsTrace ++ [.openFailed path] }) := by
  simp [openReadWrite, osOpen, h]

/-- Steps 2 to 4 when the read fails: the error is returned, the handle is
opened and closed, the response is untouched. -/
theorem openReadWrite_readErr (fs : FS) (path : GoString) (s : State) (e : SysError)
    (h : fs path = .file (.fail e)) :
    openReadWrite fs path s
      = (.returned (some e.toError),
          { s with fsTrace := s.fsTrace ++ [.opened path (freshFd s.openFiles),
                                             .closed (freshFd s.openFiles)] }) := by
  simp [openReadWrite, osOpen, h, readAndWrite, readAll, fileClose]
  exact ne_freshFd_of_mem _

/-- Steps 2 to 4 when open and read succeed: one `Write` of the content,
whose result is the handler's result. -/
theorem openReadWrite_readOk (fs : FS) (path content : GoString) (s : State)
    (h : fs path = .file (.ok content)) :
    openReadWrite fs path s
      = (.returned (s.resp.write content).1,
          { s with resp := (s.resp.write content).2
                   fsTrace := s.fsTrace ++ [.opened path (freshFd s.openFiles),
                                             .closed (freshFd s.openFiles)] }) := by
  simp only [openReadWrite, osOpen, h, readAndWrite, readAll, fileClose]
  rcases hw : s.resp.write content with ⟨_ | err, w⟩ <;>
    simp <;> exact ne_freshFd_of_mem _

theorem handlerFileList_v2_of_le (fs : FS) (request : Request) (s : State)
    (h : 6 ≤ len request.path) :
    handlerFileList_v2 fs request s = openReadWrite fs (request.path.drop 6) s := by
  have h6 : len (go "/list/") = 6 := by decide
  simp [handlerFileList_v2, h6, sliceFrom_of_le h]

theorem handlerFileList_v2_of_lt (fs : FS) (request : Request) (s : State)
    (h : len request.path < 6) :
    handlerFileList_v2 fs request s
      = (.panicked (sliceBoundsPanic 6 (len request.path)), s) := by
  have h6 : len (go "/list/") = 6 := by decide
  simp [handlerFileList_v2, h6, sliceFrom_of_lt h]

theorem handlerFileList_v3_of_hasPrefix (fs : FS) (request : Request) (s : State)
    (h : hasPrefix request.path listPrefix = true) :
    handlerFileList_v3 fs request s = openReadWrite fs (request.path.drop 6) s := by
  have hle : 6 ≤ len request.path := len_listPrefix ▸ hasPrefix_len_le h
  simp [handlerFileList_v3, h, len_listPrefix, sliceFrom_of_le hle]

theorem handlerFileList_v3_of_not_hasPrefix (fs : FS) (request : Request) (s : State)
    (h : hasPrefix request.path listPrefix = false) :
    handlerFileList_v3 fs request s
      = (.returned (some (UserError (go "the prefix of url must be /list/"))), s) := by
  have hmsg : go "the prefix of url must be " ++ listPrefix
      = go "the prefix of url must be /list/" := by decide
  simp [handlerFileList_v3, h, hmsg]


/-! ## The wrapper on an error of the wrapped handler -/

/-- What `http.Error` leaves on a writer: the two interface calls, the
status if none was written before, and the message line if the connection
is sound. -/
theorem httpError_effect (w : Response) (msg : GoString) (code : Nat) :
    (httpError w msg code).calls = w.calls ++ [.writeHeader code, .write (msg ++ [10])] ∧
    (httpError w msg code).status = some (w.status.getD code) ∧
    (httpError w msg code).conn = w.conn ∧
    (w.conn = none → (httpError w msg code).body = w.body ++ (msg ++ [10])) := by
  unfold httpError Response.write Response.writeHeader
  rcases hc : w.conn with _ | ⟨n, e⟩ <;> simp

/-- Version 3's wrapper on an error that is no `BusinessError`: one log
entry, then `http.Error` with the text of the classified code and the
constant status 404. -/
theorem errWrapper_v3_system_error (handler : appHandler) (request : Request)
    (s s1 : State) (err : GoError)
    (hret : handler request s = (.returned (some err), s1))
    (hnb : err.message = none) :
    errWrapper_v3 handler request s
      = (none, { s1 with
          log := s1.log ++ [go "Error occurred handling request: " ++ err.text]
          resp := httpError s1.resp (statusText (classify err)) 404 }) := by
  simp [errWrapper_v3, hret, hnb, logPrintf, classify]

/-- Version 3's wrapper on a `BusinessError`: one log entry, then
`http.Error` with the message and status 400. -/
theorem errWrapper_v3_business_error (handler : appHandler) (request : Request)
    (s s1 : State) (err : GoError) (msg : GoString)
    (hret : handler request s = (.returned (some err), s1))
    (hb : err.message = some msg) :
    errWrapper_v3 handler request s
      = (none, { s1 with
          log := s1.log ++ [go "Error occurred handling request: " ++ err.text]
          resp := httpError s1.resp msg 400 }) := by
  simp [errWrapper_v3, hret, hb, logPrintf]

/-- Version 2's wrapper on an error: a log entry only for a not-found error,
then `http.Error` with the text of the classified code and the constant
status 404. -/
theorem errWrapper_v2_error (handler : appHandler) (request : Request)
    (s s1 : State) (err : GoError)
    (hret : handler request s = (.returned (some err), s1)) :
    errWrapper_v2 handler request s
      = (none, { s1 with
          log := if err.notExist then
              s1.log ++ [go "Error occurred handling request: " ++ err.text]
            else s1.log
          resp := httpError s1.resp (statusText (classify err)) 404 }) := by
  unfold errWrapper_v2 classify
  rw [hret]
  by_cases hn : err.notExist = true
  · simp [hn, logPrintf]
  · by_cases hp : err.permission = true <;> simp [hn, hp]

/-! ## C1 -/

/-- C1, as the code has it: in version 3, a request whose URL path does not
start with "/list/" is answered by errWrapper(handlerFileList) with status
400 through one `http.Error` call, so the body is the message "the prefix of
url must be /list/" followed by a newline (when the connection is sound). -/
theorem v3_bad_prefix_bad_request (fs : FS) (request : Request) (s : State)
    (conn : Option (Nat × SysError))
    (hp : hasPrefix request.path listPrefix = false)
    (hw : s.resp = Response.fresh conn) :
    (errWrapper_v3 (handlerFileList_v3 fs) request s).1 = none ∧
    (errWrapper_v3 (handlerFileList_v3 fs) request s).2.resp.status = some 400 ∧
    (errWrapper_v3 (handlerFileList_v3 fs) request s).2.resp.calls
      = [.writeHeader 400, .write (go "the prefix of url must be /list/" ++ [10])] ∧
    (conn = none →
      (errWrapper_v3 (handlerFileList_v3 fs) request s).2.resp.body
        = go "the prefix of url must be /list/" ++ [10]) := by
  have hb : (UserError (go "the prefix of url must be /list/")).message
      = some (go "the prefix of url must be /list/") := rfl
  rw [errWrapper_v3_business_error _ _ _ _ _ _
    (handlerFileList_v3_of_not_hasPrefix fs request s hp) hb]
  obtain ⟨h1, h2, _, h4⟩ :=
    httpError_effect (Response.fresh conn) (go "the prefix of url must be /list/") 400
  rw [hw]
  refine ⟨rfl, ?_, ?_, ?_⟩
  · rw [h2]; rfl
  · rw [h1]; rfl
  · intro hc
    rw [h4 hc]; rfl

theorem v3_bad_prefix_bad_request_witness :
    hasPrefix (go "/favicon.ico") listPrefix = false ∧
    (errWrapper_v3 (handlerFileList_v3 sampleFS) ⟨go "/favicon.ico"⟩
        (State.start none [])).2.resp.body
      = go "the prefix of url must be /list/\n" :=
  ⟨by decide,
   (v3_bad_prefix_bad_request sampleFS ⟨go "/favicon.ico"⟩ (State.start none []) none
      (by decide) rfl).2.2.2 rfl⟩

/-- C1, as stated, fails: on the path "/x" the body is not exactly the
message, it carries the newline that `http.Error` appends. -/
theorem v3_bad_prefix_body_not_exact :
    hasPrefix (go "/x") listPrefix = false ∧
    (errWrapper_v3 (handlerFileList_v3 sampleFS) ⟨go "/x"⟩
        (State.start none [])).2.resp.status = some 400 ∧
    (errWrapper_v3 (handlerFileList_v3 sampleFS) ⟨go "/x"⟩
        (State.start none [])).2.resp.body
      ≠ go "the prefix of url must be /list/" := by
  decide

/-! ## C2 -/

/-- C2, the code at the failing input: in version 3 the open of "secret"
fails with a permission error that is no BusinessError and classifies as
403, yet the wrapper sends status 404 with the body "Forbidden". -/
theorem v3_permission_error_sends_404 :
    (∃ err s1,
      handlerFileList_v3 sampleFS ⟨go "/list/secret"⟩ (State.start none [])
        = (.returned (some err), s1) ∧
      err.message = none ∧ err.notExist = false ∧ err.permission = true ∧
      classify err = 403) ∧
    (errWrapper_v3 (handlerFileList_v3 sampleFS) ⟨go "/list/secret"⟩
        (State.start none [])).2.resp.status = some 404 ∧
    (errWrapper_v3 (handlerFileList_v3 sampleFS) ⟨go "/list/secret"⟩
        (State.start none [])).2.resp.calls
      = [.writeHeader 404, .write (go "Forbidden\n")] := by
  refine ⟨⟨_, _, rfl, ?_⟩, ?_, ?_⟩ <;> decide


/-! ## The success path -/

theorem drop_list_path (P : GoString) : (go "/list/" ++ P).drop 6 = P := by
  have h : go "/list/" = [47, 108, 105, 115, 116, 47] := by decide
  simp [h]

theorem len_list_path (P : GoString) : 6 ≤ len (go "/list/" ++ P) := by
  have h : go "/list/" = [47, 108, 105, 115, 116, 47] := by decide
  simp [h, len]

theorem write_fresh (content : GoString) :
    (Response.fresh none).write content
      = (none, { status := some 200, body := content, calls := [.write content], conn := none }) := by
  simp [Response.write, Response.fresh]

/-- Steps 2 to 4 on a readable file and a fresh, sound writer. -/
theorem openReadWrite_success (fs : FS) (P content : GoString) (s : State)
    (hfile : fs P = .file (.ok content)) (hw : s.resp = Response.fresh none) :
    openReadWrite fs P s
      = (.returned none,
          { s with
            resp := { status := some 200, body := content, calls := [.write content],
                      conn := none }
            fsTrace := s.fsTrace ++ [.opened P (freshFd s.openFiles),
                                      .closed (freshFd s.openFiles)] }) := by
  rw [openReadWrite_readOk fs P content s hfile, hw, write_fresh]

theorem errWrapper_v2_nil (handler : appHandler) (request : Request) (s s1 : State)
    (hret : handler request s = (.returned none, s1)) :
    errWrapper_v2 handler request s = (none, s1) := by
  simp [errWrapper_v2, hret]

theorem errWrapper_v3_nil (handler : appHandler) (request : Request) (s s1 : State)
    (hret : handler request s = (.returned none, s1)) :
    errWrapper_v3 handler request s = (none, s1) := by
  simp [errWrapper_v3, hret]

theorem handlerFileList_v2_success (fs : FS) (P content : GoString) (s : State)
    (hfile : fs P = .file (.ok content)) (hw : s.resp = Response.fresh none) :
    handlerFileList_v2 fs ⟨go "/list/" ++ P⟩ s
      = (.returned none,
          { s with
            resp := { status := some 200, body := content, calls := [.write content],
                      conn := none }
            fsTrace := s.fsTrace ++ [.opened P (freshFd s.openFiles),
                                      .closed (freshFd s.openFiles)] }) := by
  rw [handlerFileList_v2_of_le fs _ s (len_list_path P)]
  simp only [drop_list_path]
  exact openReadWrite_success fs P content s hfile hw

theorem handlerFileList_v3_success (fs : FS) (P content : GoString) (s : State)
    (hfile : fs P = .file (.ok content)) (hw : s.resp = Response.fresh none) :
    handlerFileList_v3 fs ⟨go "/list/" ++ P⟩ s
      = (.returned none,
          { s with
            resp := { status := some 200, body := content, calls := [.write content],
                      conn := none }
            fsTrace := s.fsTrace ++ [.opened P (freshFd s.openFiles),
                                      .closed (freshFd s.openFiles)] }) := by
  have hp : hasPrefix (go "/list/" ++ P) listPrefix = true := hasPrefix_append (go "/list/") P
  rw [handlerFileList_v3_of_hasPrefix fs ⟨go "/list/" ++ P⟩ s hp]
  simp only [drop_list_path]
  exact openReadWrite_success fs P content s hfile hw

/-! ## C3 -/

/-- C3: in versions 2 and 3, when P names an existing readable file and the
response write succeeds, the request "/list/" + P through
errWrapper(handlerFileList) ends with handlerFileList returning nil, the
wrapper adding nothing to what the handler left, status 200 (never set
explicitly: the only call on the writer is the one Write) and a body equal
to the file content. -/
theorem serves_file_bytes (fs : FS) (P content : GoString) (s : State)
    (hfile : fs P = .file (.ok content)) (hw : s.resp = Response.fresh none) :
    ((handlerFileList_v2 fs ⟨go "/list/" ++ P⟩ s).1 = .returned none ∧
     errWrapper_v2 (handlerFileList_v2 fs) ⟨go "/list/" ++ P⟩ s
       = (none, (handlerFileList_v2 fs ⟨go "/list/" ++ P⟩ s).2) ∧
     (errWrapper_v2 (handlerFileList_v2 fs) ⟨go "/list/" ++ P⟩ s).2.resp.status = some 200 ∧
     (errWrapper_v2 (handlerFileList_v2 fs) ⟨go "/list/" ++ P⟩ s).2.resp.body = content ∧
     (errWrapper_v2 (handlerFileList_v2 fs) ⟨go "/list/" ++ P⟩ s).2.resp.calls
       = [.write content]) ∧
    ((handlerFileList_v3 fs ⟨go "/list/" ++ P⟩ s).1 = .returned none ∧
     errWrapper_v3 (handlerFileList_v3 fs) ⟨go "/list/" ++ P⟩ s
       = (none, (handlerFileList_v3 fs ⟨go "/list/" ++ P⟩ s).2) ∧
     (errWrapper_v3 (handlerFileList_v3 fs) ⟨go "/list/" ++ P⟩ s).2.resp.status = some 200 ∧
     (errWrapper_v3 (handlerFileList_v3 fs) ⟨go "/list/" ++ P⟩ s).2.resp.body = content ∧
     (errWrapper_v3 (handlerFileList_v3 fs) ⟨go "/list/" ++ P⟩ s).2.resp.calls
       = [.write content]) := by
  have h2 := handlerFileList_v2_success fs P content s hfile hw
  have h3 := handlerFileList_v3_success fs P content s hfile hw
  have w2 := errWrapper_v2_nil _ _ _ _ h2
  have w3 := errWrapper_v3_nil _ _ _ _ h3
  refine ⟨⟨?_, ?_, ?_, ?_, ?_⟩, ⟨?_, ?_, ?_, ?_, ?_⟩⟩
  · rw [h2]
  · rw [w2, h2]
  · rw [w2]
  · rw [w2]
  · rw [w2]
  · rw [h3]
  · rw [w3, h3]
  · rw [w3]
  · rw [w3]
  · rw [w3]

theorem serves_file_bytes_witness :
    sampleFS (go "hello.txt") = .file (.ok (go "hi")) ∧
    (errWrapper_v2 (handlerFileList_v2 sampleFS) ⟨go "/list/" ++ go "hello.txt"⟩
        (State.start none [0, 1, 2])).2.resp.body = go "hi" ∧
    (errWrapper_v3 (handlerFileList_v3 sampleFS) ⟨go "/list/" ++ go "hello.txt"⟩
        (State.start none [0, 1, 2])).2.resp.status = some 200 :=
  ⟨by decide,
   (serves_file_bytes sampleFS (go "hello.txt") (go "hi") (State.start none [0, 1, 2])
      (by decide) rfl).1.2.2.2.1,
   (serves_file_bytes sampleFS (go "hello.txt") (go "hi") (State.start none [0, 1, 2])
      (by decide) rfl).2.2.2.1⟩

/-! ## C4 -/

/-- C4, as the code has it: in version 3, with hello.txt holding "hi" in the
working directory, the handler that main registers on the pattern "/"
answers the URL path "/list/hello.txt" with status 200 and body "hi", and
answers the URL path "/hello.txt" with status 400 and the body "the prefix
of url must be /list/" followed by a newline (on a fresh response writer
whose writes succeed). -/
theorem v3_hello_scenario (fs : FS) (s : State)
    (hfile : fs (go "hello.txt") = .file (.ok (go "hi")))
    (hw : s.resp = Response.fresh none) :
    (main_v3 fs).1 = go "/" ∧
    (((main_v3 fs).2 ⟨go "/list/hello.txt"⟩ s).2.resp.status = some 200 ∧
     ((main_v3 fs).2 ⟨go "/list/hello.txt"⟩ s).2.resp.body = go "hi") ∧
    (((main_v3 fs).2 ⟨go "/hello.txt"⟩ s).2.resp.status = some 400 ∧
     ((main_v3 fs).2 ⟨go "/hello.txt"⟩ s).2.resp.body
       = go "the prefix of url must be /list/\n") := by
  have hpath : go "/list/hello.txt" = go "/list/" ++ go "hello.txt" := by decide
  have h3 := handlerFileList_v3_success fs (go "hello.txt") (go "hi") s hfile hw
  have hb : (UserError (go "the prefix of url must be /list/")).message
      = some (go "the prefix of url must be /list/") := rfl
  have hbad := errWrapper_v3_business_error _ _ _ _ _ _
    (handlerFileList_v3_of_not_hasPrefix fs ⟨go "/hello.txt"⟩ s (by decide)) hb
  obtain ⟨_, e2, _, e4⟩ :=
    httpError_effect (Response.fresh none) (go "the prefix of url must be /list/") 400
  refine ⟨rfl, ?_, ?_⟩
  · show (errWrapper_v3 (handlerFileList_v3 fs) ⟨go "/list/hello.txt"⟩ s).2.resp.status
        = some 200 ∧
      (errWrapper_v3 (handlerFileList_v3 fs) ⟨go "/list/hello.txt"⟩ s).2.resp.body = go "hi"
    rw [hpath, errWrapper_v3_nil _ _ _ _ h3]
    exact ⟨rfl, rfl⟩
  · show (errWrapper_v3 (handlerFileList_v3 fs) ⟨go "/hello.txt"⟩ s).2.resp.status
        = some 400 ∧
      (errWrapper_v3 (handlerFileList_v3 fs) ⟨go "/hello.txt"⟩ s).2.resp.body
        = go "the prefix of url must be /list/\n"
    rw [hbad, hw]
    refine ⟨?_, ?_⟩
    · rw [e2]; rfl
    · rw [e4 rfl]; decide

theorem v3_hello_scenario_witness :
    sampleFS (go "hello.txt") = .file (.ok (go "hi")) ∧
    ((main_v3 sampleFS).2 ⟨go "/list/hello.txt"⟩ (State.start none [])).2.resp.body
      = go "hi" :=
  ⟨by decide, (v3_hello_scenario sampleFS (State.start none []) (by decide) rfl).2.1.2⟩

/-- C4, as stated, fails: with hello.txt holding "hi", the handler that
version 3 registers on "/" answers the URL path "/hello.txt" with status
400, not 200, and a body that is not "hi". -/
theorem v3_hello_txt_rejected :
    sampleFS (go "hello.txt") = .file (.ok (go "hi")) ∧
    (main_v3 sampleFS).1 = go "/" ∧
    ((main_v3 sampleFS).2 ⟨go "/hello.txt"⟩ (State.start none [])).2.resp.status
      = some 400 ∧
    ¬(((main_v3 sampleFS).2 ⟨go "/hello.txt"⟩ (State.start none [])).2.resp.status
        = some 200 ∧
      ((main_v3 sampleFS).2 ⟨go "/hello.txt"⟩ (State.start none [])).2.resp.body
        = go "hi") := by
  decide


/-! ## Frame lemmas for steps 2 to 4 -/

theorem write_calls (w : Response) (data : GoString) :
    (w.write data).2.calls = w.calls ++ [.write data] := by
  unfold Response.write
  rcases w.conn with _ | ⟨n, e⟩ <;> rfl

/-- Steps 2 to 4 return nil only after one `Write` of the whole content. -/
theorem openReadWrite_nil (fs : FS) (path : GoString) (s : State)
    (h : (openReadWrite fs path s).1 = .returned none) :
    ∃ content, fs path = .file (.ok content) ∧
      (openReadWrite fs path s).2.resp.calls = s.resp.calls ++ [.write content] := by
  rcases hf : fs path with (content | e) | e
  · refine ⟨content, rfl, ?_⟩
    rw [openReadWrite_readOk fs path content s hf]
    exact write_calls _ _
  · rw [openReadWrite_readErr fs path s e hf] at h
    simp [SysError.toError] at h
  · rw [openReadWrite_openErr fs path s e hf] at h
    simp [SysError.toError] at h

/-- Steps 2 to 4 make no call on the writer, or the one `Write` of the whole
content. -/
theorem openReadWrite_calls (fs : FS) (path : GoString) (s : State) :
    (openReadWrite fs path s).2.resp.calls = s.resp.calls ∨
    ∃ content, fs path = .file (.ok content) ∧
      (openReadWrite fs path s).2.resp.calls = s.resp.calls ++ [.write content] := by
  rcases hf : fs path with (content | e) | e
  · right
    refine ⟨content, rfl, ?_⟩
    rw [openReadWrite_readOk fs path content s hf]
    exact write_calls _ _
  · left
    rw [openReadWrite_readErr fs path s e hf]
  · left
    rw [openReadWrite_openErr fs path s e hf]

/-- Steps 2 to 4 leave the set of open handles as it was. -/
theorem openReadWrite_openFiles (fs : FS) (path : GoString) (s : State) :
    (openReadWrite fs path s).2.openFiles = s.openFiles := by
  rcases hf : fs path with (content | e) | e
  · rw [openReadWrite_readOk fs path content s hf]
  · rw [openReadWrite_readErr fs path s e hf]
  · rw [openReadWrite_openErr fs path s e hf]

/-- Steps 2 to 4 on a path that opens: the handle is opened, then closed
once, whatever the read and the write do. -/
theorem openReadWrite_file_trace (fs : FS) (path : GoString) (s : State) (r : ReadOutcome)
    (hf : fs path = .file r) :
    (openReadWrite fs path s).2.fsTrace
      = s.fsTrace ++ [.opened path (freshFd s.openFiles), .closed (freshFd s.openFiles)] := by
  rcases r with content | e
  · rw [openReadWrite_readOk fs path content s hf]
  · rw [openReadWrite_readErr fs path s e hf]

/-! ## C5 -/

/-- C5: in versions 2 and 3, when prefix validation (version 3), the open or
the read fails, handlerFileList returns that error and the response writer
is as it was; when handlerFileList returns nil, it has made one Write call,
whose argument is the whole content of the file. -/
theorem handlerFileList_single_write (fs : FS) (request : Request) (s : State) :
    (hasPrefix request.path listPrefix = false →
      handlerFileList_v3 fs request s
        = (.returned (some (UserError (go "the prefix of url must be /list/"))), s)) ∧
    (∀ e, fs (request.path.drop 6) = .openErr e →
      (6 ≤ len request.path →
        (handlerFileList_v2 fs request s).1 = .returned (some e.toError) ∧
        (handlerFileList_v2 fs request s).2.resp = s.resp) ∧
      (hasPrefix request.path listPrefix = true →
        (handlerFileList_v3 fs request s).1 = .returned (some e.toError) ∧
        (handlerFileList_v3 fs request s).2.resp = s.resp)) ∧
    (∀ e, fs (request.path.drop 6) = .file (.fail e) →
      (6 ≤ len request.path →
        (handlerFileList_v2 fs request s).1 = .returned (some e.toError) ∧
        (handlerFileList_v2 fs request s).2.resp = s.resp) ∧
      (hasPrefix request.path listPrefix = true →
        (handlerFileList_v3 fs request s).1 = .returned (some e.toError) ∧
        (handlerFileList_v3 fs request s).2.resp = s.resp)) ∧
    ((handlerFileList_v2 fs request s).1 = .returned none →
      ∃ content, fs (request.path.drop 6) = .file (.ok content) ∧
        (handlerFileList_v2 fs request s).2.resp.calls
          = s.resp.calls ++ [.write content]) ∧
    ((handlerFileList_v3 fs request s).1 = .returned none →
      ∃ content, fs (request.path.drop 6) = .file (.ok content) ∧
        (handlerFileList_v3 fs request s).2.resp.calls
          = s.resp.calls ++ [.write content]) ∧
    (∀ h ∈ [handlerFileList_v2 fs, handlerFileList_v3 fs],
      (h request s).2.resp.calls = s.resp.calls ∨
      ∃ content, fs (request.path.drop 6) = .file (.ok content) ∧
        (h request s).2.resp.calls = s.resp.calls ++ [.write content]) := by
  refine ⟨handlerFileList_v3_of_not_hasPrefix fs request s, ?_, ?_, ?_, ?_, ?_⟩
  · intro e he
    refine ⟨fun hle => ?_, fun hp => ?_⟩
    · rw [handlerFileList_v2_of_le fs request s hle, openReadWrite_openErr fs _ s e he]
      exact ⟨rfl, rfl⟩
    · rw [handlerFileList_v3_of_hasPrefix fs request s hp, openReadWrite_openErr fs _ s e he]
      exact ⟨rfl, rfl⟩
  · intro e he
    refine ⟨fun hle => ?_, fun hp => ?_⟩
    · rw [handlerFileList_v2_of_le fs request s hle, openReadWrite_readErr fs _ s e he]
      exact ⟨rfl, rfl⟩
    · rw [handlerFileList_v3_of_hasPrefix fs request s hp, openReadWrite_readErr fs _ s e he]
      exact ⟨rfl, rfl⟩
  · intro h
    by_cases hle : 6 ≤ len request.path
    · rw [handlerFileList_v2_of_le fs request s hle] at h ⊢
      exact openReadWrite_nil fs _ s h
    · rw [handlerFileList_v2_of_lt fs request s (Nat.not_le.1 hle)] at h
      cases h
  · intro h
    cases hp : hasPrefix request.path listPrefix
    · rw [handlerFileList_v3_of_not_hasPrefix fs request s hp] at h
      cases h
    · rw [handlerFileList_v3_of_hasPrefix fs request s hp] at h ⊢
      exact openReadWrite_nil fs _ s h
  · intro h hh
    simp only [List.mem_cons, List.mem_singleton, List.not_mem_nil, or_false] at hh
    rcases hh with rfl | rfl
    · by_cases hle : 6 ≤ len request.path
      · rw [handlerFileList_v2_of_le fs request s hle]
        exact openReadWrite_calls fs _ s
      · rw [handlerFileList_v2_of_lt fs request s (Nat.not_le.1 hle)]
        exact Or.inl rfl
    · cases hp : hasPrefix request.path listPrefix
      · rw [handlerFileList_v3_of_not_hasPrefix fs request s hp]
        exact Or.inl rfl
      · rw [handlerFileList_v3_of_hasPrefix fs request s hp]
        exact openReadWrite_calls fs _ s

theorem handlerFileList_single_write_witness :
    (handlerFileList_v3 sampleFS ⟨go "/list/hello.txt"⟩ (State.start none [])).1
      = .returned none ∧
    ∃ content, sampleFS ((go "/list/hello.txt").drop 6) = .file (.ok content) ∧
      (handlerFileList_v3 sampleFS ⟨go "/list/hello.txt"⟩ (State.start none [])).2.resp.calls
        = (State.start none []).resp.calls ++ [.write content] :=
  ⟨by decide,
   (handlerFileList_single_write sampleFS ⟨go "/list/hello.txt"⟩
      (State.start none [])).2.2.2.2.1 (by decide)⟩

/-! ## C6 -/

/-- C6, the code at the failing input: in version 2 the open of "secret"
fails with a permission error, the handler returns it, and errWrapper sends
its reply without any log entry; version 3 logs the one line on the same
request. -/
theorem v2_permission_error_not_logged :
    (∃ err s1,
      handlerFileList_v2 sampleFS ⟨go "/list/secret"⟩ (State.start none [])
        = (.returned (some err), s1) ∧
      err.text = go "open secret: permission denied") ∧
    (errWrapper_v2 (handlerFileList_v2 sampleFS) ⟨go "/list/secret"⟩
        (State.start none [])).2.log = [] ∧
    (errWrapper_v3 (handlerFileList_v3 sampleFS) ⟨go "/list/secret"⟩
        (State.start none [])).2.log
      = [go "Error occurred handling request: open secret: permission denied"] := by
  refine ⟨⟨_, _, rfl, ?_⟩, ?_, ?_⟩ <;> decide

/-! ## C7 -/

/-- C7: in version 3, when the wrapped handler panics with a value r, the
function returned by errWrapper returns normally, appends the one log entry
"Panic: " followed by r, and leaves the response writer exactly as the
handler left it. -/
theorem errWrapper_v3_recovers (handler : appHandler) (request : Request)
    (s s1 : State) (r : PanicValue)
    (hpanic : handler request s = (.panicked r, s1)) :
    (errWrapper_v3 handler request s).1 = none ∧
    (errWrapper_v3 handler request s).2.log = s1.log ++ [go "Panic: " ++ r.render] ∧
    (errWrapper_v3 handler request s).2.resp = s1.resp := by
  simp [errWrapper_v3, hpanic, logPrintf]

theorem errWrapper_v3_recovers_witness :
    (errWrapper_v3 (handlerFileList_v2 sampleFS) ⟨go "/li"⟩ (State.start none [])).1 = none ∧
    (errWrapper_v3 (handlerFileList_v2 sampleFS) ⟨go "/li"⟩ (State.start none [])).2.log
      = [go "Panic: runtime error: slice bounds out of range [6:3]"] ∧
    (errWrapper_v3 (handlerFileList_v2 sampleFS) ⟨go "/li"⟩ (State.start none [])).2.resp
      = Response.fresh none :=
  errWrapper_v3_recovers (handlerFileList_v2 sampleFS) ⟨go "/li"⟩ (State.start none [])
    (State.start none []) ⟨go "runtime error: slice bounds out of range [6:3]"⟩ (by decide)


/-! ## C8 -/

/-- C8: in versions 2 and 3, handlerFileList leaves the set of open file
handles unchanged on every exit path; when prefix validation fails, or the
slice panics in version 2, no file-system call is made; when the open fails
only the failed open is recorded, no handle is opened; when the open
succeeds the handle is opened and then closed once before the call returns,
whatever the read and the write do. -/
theorem handlerFileList_handles_released (fs : FS) (request : Request) (s : State) :
    ((handlerFileList_v2 fs request s).2.openFiles = s.openFiles ∧
     (handlerFileList_v3 fs request s).2.openFiles = s.openFiles) ∧
    (hasPrefix request.path listPrefix = false →
      (handlerFileList_v3 fs request s).2.fsTrace = s.fsTrace) ∧
    (len request.path < 6 →
      (handlerFileList_v2 fs request s).2.fsTrace = s.fsTrace) ∧
    (∀ e, fs (request.path.drop 6) = .openErr e →
      (6 ≤ len request.path →
        (handlerFileList_v2 fs request s).2.fsTrace
          = s.fsTrace ++ [.openFailed (request.path.drop 6)]) ∧
      (hasPrefix request.path listPrefix = true →
        (handlerFileList_v3 fs request s).2.fsTrace
          = s.fsTrace ++ [.openFailed (request.path.drop 6)])) ∧
    (∀ r, fs (request.path.drop 6) = .file r →
      (6 ≤ len request.path →
        (handlerFileList_v2 fs request s).2.fsTrace
          = s.fsTrace ++ [.opened (request.path.drop 6) (freshFd s.openFiles),
                          .closed (freshFd s.openFiles)]) ∧
      (hasPrefix request.path listPrefix = true →
        (handlerFileList_v3 fs request s).2.fsTrace
          = s.fsTrace ++ [.opened (request.path.drop 6) (freshFd s.openFiles),
                          .closed (freshFd s.openFiles)])) := by
  refine ⟨⟨?_, ?_⟩, ?_, ?_, ?_, ?_⟩
  · by_cases hle : 6 ≤ len request.path
    · rw [handlerFileList_v2_of_le fs request s hle]
      exact openReadWrite_openFiles fs _ s
    · rw [handlerFileList_v2_of_lt fs request s (Nat.not_le.1 hle)]
  · cases hp : hasPrefix request.path listPrefix
    · rw [handlerFileList_v3_of_not_hasPrefix fs request s hp]
    · rw [handlerFileList_v3_of_hasPrefix fs request s hp]
      exact openReadWrite_openFiles fs _ s
  · intro hp
    rw [handlerFileList_v3_of_not_hasPrefix fs request s hp]
  · intro hlt
    rw [handlerFileList_v2_of_lt fs request s hlt]
  · intro e he
    refine ⟨fun hle => ?_, fun hp => ?_⟩
    · rw [handlerFileList_v2_of_le fs request s hle, openReadWrite_openErr fs _ s e he]
    · rw [handlerFileList_v3_of_hasPrefix fs request s hp, openReadWrite_openErr fs _ s e he]
  · intro r hr
    refine ⟨fun hle => ?_, fun hp => ?_⟩
    · rw [handlerFileList_v2_of_le fs request s hle]
      exact openReadWrite_file_trace fs _ s r hr
    · rw [handlerFileList_v3_of_hasPrefix fs request s hp]
      exact openReadWrite_file_trace fs _ s r hr

theorem handlerFileList_handles_released_witness :
    sampleFS ((go "/list/hello.txt").drop 6) = .file (.ok (go "hi")) ∧
    hasPrefix (go "/list/hello.txt") listPrefix = true ∧
    (handlerFileList_v3 sampleFS ⟨go "/list/hello.txt"⟩
        (State.start (some (1, ⟨go "broken pipe", false, false⟩)) [3, 7])).2.fsTrace
      = [.opened (go "hello.txt") 8, .closed 8] :=
  ⟨by decide, by decide,
   ((handlerFileList_handles_released sampleFS ⟨go "/list/hello.txt"⟩
      (State.start (some (1, ⟨go "broken pipe", false, false⟩)) [3, 7])).2.2.2.2
        (.ok (go "hi")) (by decide)).2 (by decide)⟩

/-! ## Version 1 -/

theorem handler_v1_of_lt (fs : FS) (request : Request) (s : State)
    (h : len request.path < 6) :
    handler_v1 fs request s = (some (sliceBoundsPanic 6 (len request.path)), s) := by
  have h6 : len (go "/list/") = 6 := by decide
  simp [handler_v1, h6, sliceFrom_of_lt h]

theorem handler_v1_openErr (fs : FS) (request : Request) (s : State) (e : SysError)
    (h : 6 ≤ len request.path) (he : fs (request.path.drop 6) = .openErr e) :
    handler_v1 fs request s
      = (some (errorPanic e.toError),
          { s with fsTrace := s.fsTrace ++ [.openFailed (request.path.drop 6)] }) := by
  have h6 : len (go "/list/") = 6 := by decide
  simp [handler_v1, h6, sliceFrom_of_le h, osOpen, he]

theorem handler_v1_readErr (fs : FS) (request : Request) (s : State) (e : SysError)
    (h : 6 ≤ len request.path) (he : fs (request.path.drop 6) = .file (.fail e)) :
    (handler_v1 fs request s).1 = some (errorPanic e.toError) ∧
    (handler_v1 fs request s).2.resp = s.resp := by
  have h6 : len (go "/list/") = 6 := by decide
  simp [handler_v1, h6, sliceFrom_of_le h, osOpen, he, readAll, fileClose]

theorem handler_v1_readOk (fs : FS) (request : Request) (s : State) (content : GoString)
    (h : 6 ≤ len request.path) (he : fs (request.path.drop 6) = .file (.ok content)) :
    (handler_v1 fs request s).2.resp = (s.resp.write content).2 := by
  have h6 : len (go "/list/") = 6 := by decide
  simp only [handler_v1, h6, sliceFrom_of_le h, osOpen, he, readAll]
  rcases hw : s.resp.write content with ⟨_ | err, w⟩ <;> simp [fileClose]

/-! ## C9 -/

/-- C9, as the code has it: in version 2, for every non-nil error returned
by the wrapped handler, errWrapper returns normally after one `http.Error`
call with the constant status 404 and the status text of the classified code
(404 not-found, 403 permission, 500 otherwise): on a response whose status
the handler has not written the status is 404, and on a sound connection the
body gains that text and a newline.  In version 1, when the open or the read
fails the handler panics with that error and leaves the response writer
untouched, and on every request the only call the handler can make on the
response writer is the one Write of the file content. -/
theorem classified_code_discarded (handler : appHandler) (request : Request)
    (s s1 : State) (err : GoError)
    (hret : handler request s = (.returned (some err), s1)) :
    (errWrapper_v2 handler request s).1 = none ∧
    (errWrapper_v2 handler request s).2.resp.calls
      = s1.resp.calls ++ [.writeHeader 404, .write (statusText (classify err) ++ [10])] ∧
    (s1.resp.status = none → (errWrapper_v2 handler request s).2.resp.status = some 404) ∧
    (s1.resp.conn = none →
      (errWrapper_v2 handler request s).2.resp.body
        = s1.resp.body ++ (statusText (classify err) ++ [10])) ∧
    classify err = (if err.notExist then 404 else if err.permission then 403 else 500) ∧
    (∀ (fs : FS) (r : Request) (s0 : State),
      (∀ e, 6 ≤ len r.path →
        (fs (r.path.drop 6) = .openErr e ∨ fs (r.path.drop 6) = .file (.fail e)) →
        (handler_v1 fs r s0).1 = some (errorPanic e.toError) ∧
        (handler_v1 fs r s0).2.resp = s0.resp) ∧
      ((handler_v1 fs r s0).2.resp.calls = s0.resp.calls ∨
        ∃ content, fs (r.path.drop 6) = .file (.ok content) ∧
          (handler_v1 fs r s0).2.resp.calls = s0.resp.calls ++ [.write content])) := by
  rw [errWrapper_v2_error handler request s s1 err hret]
  obtain ⟨h1, h2, _, h4⟩ := httpError_effect s1.resp (statusText (classify err)) 404
  refine ⟨rfl, h1, ?_, h4, rfl, ?_⟩
  · intro hs
    show (httpError s1.resp (statusText (classify err)) 404).status = some 404
    rw [h2, hs]
    rfl
  · intro fs r s0
    constructor
    · rintro e hle (he | he)
      · rw [handler_v1_openErr fs r s0 e hle he]
        exact ⟨rfl, rfl⟩
      · exact handler_v1_readErr fs r s0 e hle he
    · by_cases hle : 6 ≤ len r.path
      · rcases hf : fs (r.path.drop 6) with (content | e) | e
        · right
          refine ⟨content, rfl, ?_⟩
          rw [handler_v1_readOk fs r s0 content hle hf]
          exact write_calls _ _
        · left
          rw [(handler_v1_readErr fs r s0 e hle hf).2]
        · left
          rw [handler_v1_openErr fs r s0 e hle hf]
      · left
        rw [handler_v1_of_lt fs r s0 (Nat.not_le.1 hle)]

theorem classified_code_discarded_witness :
    (errWrapper_v2 (handlerFileList_v2 sampleFS) ⟨go "/list/secret"⟩
        (State.start none [])).2.resp.status = some 404 ∧
    (errWrapper_v2 (handlerFileList_v2 sampleFS) ⟨go "/list/secret"⟩
        (State.start none [])).2.resp.body = go "Forbidden\n" :=
  ⟨(classified_code_discarded (handlerFileList_v2 sampleFS) ⟨go "/list/secret"⟩
      (State.start none [])
      { State.start none [] with fsTrace := [.openFailed (go "secret")] }
      ⟨go "open secret: permission denied", none, false, true⟩ (by decide)).2.2.1 rfl,
   (classified_code_discarded (handlerFileList_v2 sampleFS) ⟨go "/list/secret"⟩
      (State.start none [])
      { State.start none [] with fsTrace := [.openFailed (go "secret")] }
      ⟨go "open secret: permission denied", none, false, true⟩ (by decide)).2.2.2.1 rfl⟩

/-- C9, as stated, fails: version 1 sends no 404, on a path that does not
exist the handler it registers panics with the open error and makes no call
on the response writer; in version 2 an error returned after a failed Write
finds the status 200 already written, which the later `http.Error` cannot
replace; and the body `http.Error` writes is the status text with a newline
after it. -/
theorem v1_v2_not_always_404 :
    (((main_v1 sampleFS).2 ⟨go "/list/missing.txt"⟩ (State.start none [])).1
        = some ⟨go "open missing.txt: no such file or directory"⟩ ∧
     ((main_v1 sampleFS).2 ⟨go "/list/missing.txt"⟩ (State.start none [])).2.resp.status
        ≠ some 404 ∧
     ((main_v1 sampleFS).2 ⟨go "/list/missing.txt"⟩ (State.start none [])).2.resp.calls
        = []) ∧
    ((handlerFileList_v2 sampleFS ⟨go "/list/hello.txt"⟩
        (State.start (some (0, ⟨go "write: broken pipe", false, false⟩)) [])).1
        = .returned (some ⟨go "write: broken pipe", none, false, false⟩) ∧
     (errWrapper_v2 (handlerFileList_v2 sampleFS) ⟨go "/list/hello.txt"⟩
        (State.start (some (0, ⟨go "write: broken pipe", false, false⟩)) [])).2.resp.status
        = some 200) ∧
    ((errWrapper_v2 (handlerFileList_v2 sampleFS) ⟨go "/list/missing.txt"⟩
        (State.start none [])).2.resp.body = go "Not Found\n" ∧
     (errWrapper_v2 (handlerFileList_v2 sampleFS) ⟨go "/list/missing.txt"⟩
        (State.start none [])).2.resp.body ≠ statusText 404) := by
  decide

/-! ## C10 -/

/-- C10: in version 3, for every URL path, handlerFileList never panics; a
path that does not start with "/list/" returns before the slice with the
state untouched; a path that starts with it is sliced in range and the path
then opened is the URL path without its first 6 bytes; version 2, which has
no check, slices in range exactly when the path has at least 6 bytes and
panics with the slice-bounds error otherwise. -/
theorem slice_in_range (fs : FS) (request : Request) (s : State) :
    (∀ v, (handlerFileList_v3 fs request s).1 ≠ .panicked v) ∧
    (hasPrefix request.path listPrefix = true ↔ go "/list/" <+: request.path) ∧
    (hasPrefix request.path listPrefix = false →
      (handlerFileList_v3 fs request s).2 = s) ∧
    (hasPrefix request.path listPrefix = true →
      sliceFrom request.path (len listPrefix) = some (request.path.drop 6) ∧
      handlerFileList_v3 fs request s = openReadWrite fs (request.path.drop 6) s ∧
      ∃ ev rest, (handlerFileList_v3 fs request s).2.fsTrace = s.fsTrace ++ ev :: rest ∧
        (ev = .openFailed (request.path.drop 6) ∨
         ev = .opened (request.path.drop 6) (freshFd s.openFiles))) ∧
    ((sliceFrom request.path (len (go "/list/"))).isSome = true ↔ 6 ≤ len request.path) ∧
    ((∃ v, (handlerFileList_v2 fs request s).1 = .panicked v) ↔ len request.path < 6) ∧
    (6 ≤ len request.path →
      handlerFileList_v2 fs request s = openReadWrite fs (request.path.drop 6) s) := by
  have h6 : len (go "/list/") = 6 := by decide
  have hret : ∀ p, ∀ v, (openReadWrite fs p s).1 ≠ .panicked v := by
    intro p v
    rcases hf : fs p with (content | e) | e
    · rw [openReadWrite_readOk fs p content s hf]; simp
    · rw [openReadWrite_readErr fs p s e hf]; simp
    · rw [openReadWrite_openErr fs p s e hf]; simp
  refine ⟨?_, hasPrefix_iff_isPrefix _ _, ?_, ?_, ?_, ?_, ?_⟩
  · intro v
    cases hp : hasPrefix request.path listPrefix
    · rw [handlerFileList_v3_of_not_hasPrefix fs request s hp]; simp
    · rw [handlerFileList_v3_of_hasPrefix fs request s hp]; exact hret _ v
  · intro hp
    rw [handlerFileList_v3_of_not_hasPrefix fs request s hp]
  · intro hp
    have hle : 6 ≤ len request.path := len_listPrefix ▸ hasPrefix_len_le hp
    refine ⟨by rw [len_listPrefix]; exact sliceFrom_of_le hle,
      handlerFileList_v3_of_hasPrefix fs request s hp, ?_⟩
    rw [handlerFileList_v3_of_hasPrefix fs request s hp]
    rcases hf : fs (request.path.drop 6) with r | e
    · exact ⟨_, _, openReadWrite_file_trace fs _ s r hf, Or.inr rfl⟩
    · rw [openReadWrite_openErr fs _ s e hf]
      exact ⟨_, [], rfl, Or.inl rfl⟩
  · rw [h6]
    unfold sliceFrom
    by_cases hle : 6 ≤ len request.path <;> simp [hle]
  · constructor
    · rintro ⟨v, hv⟩
      by_contra hlt
      rw [handlerFileList_v2_of_le fs request s (Nat.not_lt.1 hlt)] at hv
      exact hret _ v hv
    · intro hlt
      exact ⟨_, by rw [handlerFileList_v2_of_lt fs request s hlt]⟩
  · exact handlerFileList_v2_of_le fs request s

theorem slice_in_range_witness :
    (∀ v, (handlerFileList_v3 sampleFS ⟨[]⟩ (State.start none [])).1 ≠ .panicked v) ∧
    (∃ v, (handlerFileList_v2 sampleFS ⟨[]⟩ (State.start none [])).1 = .panicked v) ∧
    (handlerFileList_v3 sampleFS ⟨go "/list/hello.txt"⟩ (State.start none [])).2.fsTrace
      = [.opened (go "hello.txt") 1, .closed 1] :=
  ⟨(slice_in_range sampleFS ⟨[]⟩ (State.start none [])).1,
   (slice_in_range sampleFS ⟨[]⟩ (State.start none [])).2.2.2.2.2.1.2 (by decide),
   by
    have h := (slice_in_range sampleFS ⟨go "/list/hello.txt"⟩
      (State.start none [])).2.2.2.1 (by decide)
    rw [h.2.1]
    decide⟩

end FileServer
